import Mathlib

/-!
Verification of the wasm-encrypt-canvas content-protection pipeline.

The development shallowly embeds `src/lib.rs`:
* the codec (`encrypt`/`decrypt`: byte-wise XOR with the fixed key 123,
  re-decoded through `String::from_utf8_lossy`),
* the fragment model (`RenderString`, `Params`),
* the phantom-typed capability gate (`User<FreePlan>` / `User<VipPlan>`),
* the rendering surfaces as operations on an explicit DOM state, and
* the driver `encrypt_canvas` as a function producing an event trace.

Rust strings are modelled as lists of bytes (naturals < 256); `f64`
coordinates are carried as `Float` values that are never computed with,
only moved around, exactly as in the source.
-/

namespace WasmEncryptCanvas

/-- A byte, as carried inside a Rust `Vec<u8>` or `String`. -/
abbrev Byte := Nat

/-- The fixed single-byte key (`static KEY: u8 = 123`). -/
def KEY : Byte := 123

/-- Continuation byte test for UTF-8 (`0x80 ..= 0xBF`). -/
def isCont (b : Byte) : Bool := decide (0x80 ≤ b) && decide (b ≤ 0xBF)

/-- Admissible first continuation byte after a three-byte leader `b`. -/
def firstCont3 (b c : Byte) : Bool :=
  if b = 0xE0 then decide (0xA0 ≤ c) && decide (c ≤ 0xBF)
  else if b = 0xED then decide (0x80 ≤ c) && decide (c ≤ 0x9F)
  else isCont c

/-- Admissible first continuation byte after a four-byte leader `b`. -/
def firstCont4 (b c : Byte) : Bool :=
  if b = 0xF0 then decide (0x90 ≤ c) && decide (c ≤ 0xBF)
  else if b = 0xF4 then decide (0x80 ≤ c) && decide (c ≤ 0x8F)
  else isCont c

/-- UTF-8 encoding of U+FFFD, the replacement character emitted by
`String::from_utf8_lossy` for each maximal invalid subpart. -/
def replacementBytes : List Byte := [0xEF, 0xBF, 0xBD]

/-- Byte-level model of `String::from_utf8_lossy` followed by `.to_string()`:
valid UTF-8 sequences are kept, every maximal invalid subpart is replaced by
U+FFFD (substitution of maximal subparts, as implemented by Rust's
`Utf8Chunks`). -/
def fromUtf8Lossy : List Byte → List Byte
  | [] => []
  | b :: rest =>
    if b < 0x80 then b :: fromUtf8Lossy rest
    else if b < 0xC2 then replacementBytes ++ fromUtf8Lossy rest
    else if b ≤ 0xDF then
      match rest with
      | [] => replacementBytes
      | c1 :: rest1 =>
        if isCont c1 then b :: c1 :: fromUtf8Lossy rest1
        else replacementBytes ++ fromUtf8Lossy (c1 :: rest1)
    else if b ≤ 0xEF then
      match rest with
      | [] => replacementBytes
      | c1 :: rest1 =>
        if firstCont3 b c1 then
          match rest1 with
          | [] => replacementBytes
          | c2 :: rest2 =>
            if isCont c2 then b :: c1 :: c2 :: fromUtf8Lossy rest2
            else replacementBytes ++ fromUtf8Lossy (c2 :: rest2)
        else replacementBytes ++ fromUtf8Lossy (c1 :: rest1)
    else if b ≤ 0xF4 then
      match rest with
      | [] => replacementBytes
      | c1 :: rest1 =>
        if firstCont4 b c1 then
          match rest1 with
          | [] => replacementBytes
          | c2 :: rest2 =>
            if isCont c2 then
              match rest2 with
              | [] => replacementBytes
              | c3 :: rest3 =>
                if isCont c3 then b :: c1 :: c2 :: c3 :: fromUtf8Lossy rest3
                else replacementBytes ++ fromUtf8Lossy (c3 :: rest3)
            else replacementBytes ++ fromUtf8Lossy (c2 :: rest2)
        else replacementBytes ++ fromUtf8Lossy (c1 :: rest1)
    else replacementBytes ++ fromUtf8Lossy rest

/-- The XOR pass of the codec: `str.into_bytes().iter().map(|char| char ^ KEY)`. -/
def xorPass (s : List Byte) : List Byte := s.map (fun c => c ^^^ KEY)

/-- `fn encrypt(str: &String) -> String`: XOR every byte with `KEY`,
then re-decode with `String::from_utf8_lossy`. -/
def encrypt (s : List Byte) : List Byte := fromUtf8Lossy (xorPass s)

/-- `fn decrypt(str: &String) -> String`: textually identical to `encrypt`. -/
def decrypt (s : List Byte) : List Byte := fromUtf8Lossy (xorPass s)

/-- The byte string consists of printable ASCII (0x20 ..= 0x7E). -/
def PrintableAscii (s : List Byte) : Prop := ∀ b ∈ s, 0x20 ≤ b ∧ b ≤ 0x7E

instance (s : List Byte) : Decidable (PrintableAscii s) := by
  unfold PrintableAscii; infer_instance

/-- XOR with the key preserves the ASCII range. -/
theorem xor_key_lt_128 {b : Byte} (hb : b < 128) : b ^^^ KEY < 128 := by
  have h1 : b < 2 ^ 7 := hb
  have h2 : KEY < 2 ^ 7 := by norm_num [KEY]
  simpa using Nat.xor_lt_two_pow h1 h2

/-- XOR with the key is an involution on bytes. -/
theorem xor_key_xor_key (b : Byte) : (b ^^^ KEY) ^^^ KEY = b := by
  rw [Nat.xor_assoc, Nat.xor_self, Nat.xor_zero]

/-- On pure ASCII byte strings, `from_utf8_lossy` is the identity. -/
theorem fromUtf8Lossy_ascii :
    ∀ s : List Byte, (∀ b ∈ s, b < 128) → fromUtf8Lossy s = s := by
  intro s
  induction s with
  | nil => intro _; rfl
  | cons a l ih =>
    intro h
    have ha : a < 128 := h a (List.mem_cons_self a l)
    have hl : ∀ b ∈ l, b < 128 := fun b hb => h b (List.mem_cons_of_mem a hb)
    unfold fromUtf8Lossy
    rw [if_pos ha, ih hl]

/-- The XOR pass keeps ASCII strings ASCII. -/
theorem xorPass_ascii {s : List Byte} (h : ∀ b ∈ s, b < 128) :
    ∀ b ∈ xorPass s, b < 128 := by
  intro b hb
  rcases List.mem_map.mp hb with ⟨a, ha, rfl⟩
  exact xor_key_lt_128 (h a ha)

/-- Printable ASCII bytes are ASCII. -/
theorem printable_lt_128 {s : List Byte} (h : PrintableAscii s) :
    ∀ b ∈ s, b < 128 := by
  intro b hb
  exact Nat.lt_of_le_of_lt (h b hb).2 (by norm_num)

/-- On ASCII input the codec is literally the XOR pass. -/
theorem decrypt_eq_xorPass {s : List Byte} (h : ∀ b ∈ s, b < 128) :
    decrypt s = xorPass s := by
  unfold decrypt
  exact fromUtf8Lossy_ascii _ (xorPass_ascii h)

/-- The XOR pass is an involution. -/
theorem xorPass_xorPass (s : List Byte) : xorPass (xorPass s) = s := by
  unfold xorPass
  rw [List.map_map]
  have : ((fun c => c ^^^ KEY) ∘ fun c => c ^^^ KEY) = id := by
    funext b; exact xor_key_xor_key b
  rw [this, List.map_id]

/-- Double decryption is the identity on ASCII byte strings. -/
theorem decrypt_decrypt_ascii {s : List Byte} (h : ∀ b ∈ s, b < 128) :
    decrypt (decrypt s) = s := by
  rw [decrypt_eq_xorPass h, decrypt_eq_xorPass (xorPass_ascii h)]
  exact xorPass_xorPass s

/-- `decrypt` and `encrypt` are the same source function. -/
theorem encrypt_eq_decrypt (s : List Byte) : encrypt s = decrypt s := rfl

/-- `struct Position { x: f64, y: f64 }`. -/
structure Position where
  x : Float
  y : Float

/-- `struct FontStyle { size: f64 }`. -/
structure FontStyle where
  size : Float

/-- `struct RenderString { cipher, position, font_style }`: one fragment.
The `cipher` field carries the bytes of the Rust `String`. -/
structure RenderString where
  cipher : List Byte
  position : Position
  font_style : FontStyle

/-- `pub struct Params { render_info, user_token }`: the decoded payload. -/
structure Params where
  render_info : List RenderString
  user_token : String

/-- `fn decrypt_info(info: &mut Vec<RenderString>)`: replace every fragment's
`cipher` field by its decryption, in place. -/
def decrypt_info (info : List RenderString) : List RenderString :=
  info.map (fun item => { item with cipher := decrypt item.cipher })

/-- Marker type `struct FreePlan;`. -/
inductive FreePlan
  | mk

/-- Marker type `struct VipPlan;`. -/
inductive VipPlan
  | mk

/-- `struct User<T> { user_token, vip_level, info, _type: PhantomData<T> }`. -/
structure User (T : Type) where
  user_token : String
  vip_level : Nat
  info : List RenderString

/-- `User::<T>::new(user_token, vip_level, info)`: the generic constructor. -/
def User.new {T : Type} (user_token : String) (vip_level : Nat)
    (info : List RenderString) : User T :=
  ⟨user_token, vip_level, info⟩

/-- `fn get_vip_level(&self) -> usize`. -/
def User.get_vip_level {T : Type} (u : User T) : Nat := u.vip_level

/-- `fn set_vip_level(&mut self, vip_level: usize)`. -/
def User.set_vip_level {T : Type} (u : User T) (vip_level : Nat) : User T :=
  { u with vip_level := vip_level }

/-- The entitlement value produced by the omitted asynchronous lookup in
`fetch_vip_level`: the source uses the constant `3` regardless of the token. -/
def vipLevelService : String → Nat := fun _ => 3

/-- Entitlement resolution with an explicit resolver at the seam the spec
designates (§4.2): set `vip_level` to whatever the resolver returns for the
caller token. -/
def fetchWith {T : Type} (resolve : String → Nat) (u : User T) : User T :=
  u.set_vip_level (resolve u.user_token)

/-- `fn fetch_vip_level(&mut self)`: the source resolver, `let vip_level = 3;
self.set_vip_level(vip_level)`. -/
def User.fetch_vip_level {T : Type} (u : User T) : User T :=
  fetchWith vipLevelService u

/-- `impl From<User<FreePlan>> for User<VipPlan>`: rebuild the user with the
same token, level and fragments under the VIP tag. -/
def User.fromFree (u : User FreePlan) : User VipPlan :=
  User.new u.user_token u.vip_level u.info

/-- `struct CanvasAttributes { id, width, height }`. -/
structure CanvasAttributes where
  id : String
  width : Nat
  height : Nat

/-- The literal id string of the fixed canvas. -/
def canvasIdStr : String := "encrypt-canvas"

/-- `static CANVAS_ATTRIBUTES`: the fixed, well-known raster surface. -/
def CANVAS_ATTRIBUTES : CanvasAttributes :=
  { id := canvasIdStr, width := 100, height := 100 }

/-- Caption appended by `render_as_canvas` (`不可复制的画布`). -/
def captionCanvas : String := "不可复制的画布"

/-- Caption appended by `render_as_img` (`不可复制的图像`). -/
def captionImg : String := "不可复制的图像"

/-- Caption appended by `render_as_div` (`VIP 专用：可复制的普通元素`). -/
def captionDiv : String := "VIP 专用：可复制的普通元素"

/-- The error payload of `JsValue::from_str("cannot find canvas")`. -/
def missingCanvasMsg : String := "cannot find canvas"

/-- A DOM node appended to the host body: a caption paragraph, the raster
canvas (with its id and the fragments drawn on it), the snapshot image, or
the copyable wrapper of per-fragment divs. -/
inductive Node
  | paragraph (text : String)
  | canvas (id : String) (width height : Nat) (drawn : List RenderString)
  | image (width height : Nat) (content : List RenderString)
  | divWrap (width height : Nat) (children : List RenderString)

/-- The id of a node, when it has one (only the canvas gets an id). -/
def Node.idOf : Node → Option String
  | .canvas i _ _ _ => some i
  | _ => none

/-- The drawn content of a canvas node (`to_data_url` snapshot source). -/
def Node.drawnOf : Node → List RenderString
  | .canvas _ _ _ dr => dr
  | _ => []

/-- The host DOM: the children of `document.body` in append order. -/
structure Dom where
  body : List Node

/-- The empty host page the wasm module starts against. -/
def dom0 : Dom := ⟨[]⟩

/-- `document.get_element_by_id(...)` restricted to canvas lookup. -/
def Dom.getCanvasById (d : Dom) (i : String) : Option Node :=
  d.body.find? (fun n => n.idOf == some i)

/-- `fn render_as_canvas(&self)`: create the fixed-id canvas, draw every
fragment's text at its position with its font size, append the caption
paragraph and the canvas to the body. -/
def User.render_as_canvas {T : Type} (u : User T) (d : Dom) :
    Except String Dom :=
  .ok ⟨d.body ++ [.paragraph captionCanvas,
    .canvas CANVAS_ATTRIBUTES.id CANVAS_ATTRIBUTES.width
      CANVAS_ATTRIBUTES.height u.info]⟩

/-- `fn render_as_img(&self)`: look up the fixed-id canvas; if absent, fail
with `cannot find canvas`; otherwise snapshot it into an image and append the
caption paragraph and the image. -/
def User.render_as_img {T : Type} (_u : User T) (d : Dom) :
    Except String Dom :=
  match d.getCanvasById CANVAS_ATTRIBUTES.id with
  | none => .error missingCanvasMsg
  | some c =>
    .ok ⟨d.body ++ [.paragraph captionImg,
      .image CANVAS_ATTRIBUTES.width CANVAS_ATTRIBUTES.height c.drawnOf]⟩

/-- `impl Vip for User<VipPlan> { fn render_as_div(&self) }`: the copyable
overlay, implemented only for the VIP-tagged user. Appends the caption and a
sized wrapper containing one absolutely positioned div per fragment. -/
def User.render_as_div (u : User VipPlan) (d : Dom) : Except String Dom :=
  .ok ⟨d.body ++ [.paragraph captionDiv,
    .divWrap CANVAS_ATTRIBUTES.width CANVAS_ATTRIBUTES.height u.info]⟩

/-- The observable steps of one `encrypt_canvas` request, in execution
order. -/
inductive Event
  | decoded
  | decryptPass
  | baselineCreated
  | renderedCanvas
  | renderedImg
  | resolvedEntitlement
  | renderedDiv
deriving DecidableEq

/-- The outcome of one driven request: the returned `Result`, the final DOM,
the VIP-tagged user value if one was ever constructed, and the event
trace. -/
structure Run where
  result : Except String Unit
  dom : Dom
  vipUser : Option (User VipPlan)
  events : List Event

/-- The body of `encrypt_canvas` after successful payload decoding, with the
entitlement resolver explicit at the seam of §4.2 (the source instantiates it
with `vipLevelService`): decrypt the fragments, build the free user, render
canvas then image, resolve the entitlement, and if the level is positive
convert to the VIP user and render the overlay. -/
def runPipeline (resolve : String → Nat) (p : Params) : Run :=
  let info := decrypt_info p.render_info
  let user : User FreePlan := User.new p.user_token 0 info
  let ev0 : List Event := [.decoded, .decryptPass, .baselineCreated]
  match user.render_as_canvas dom0 with
  | .error e => ⟨.error e, dom0, none, ev0⟩
  | .ok d1 =>
    let ev1 := ev0 ++ [.renderedCanvas]
    match user.render_as_img d1 with
    | .error e => ⟨.error e, d1, none, ev1⟩
    | .ok d2 =>
      let ev2 := ev1 ++ [.renderedImg]
      let user2 := fetchWith resolve user
      let ev3 := ev2 ++ [.resolvedEntitlement]
      if user2.get_vip_level > 0 then
        let vip : User VipPlan := User.fromFree user2
        match vip.render_as_div d2 with
        | .error e => ⟨.error e, d2, some vip, ev3 ++ [.renderedDiv]⟩
        | .ok d3 => ⟨.ok (), d3, some vip, ev3 ++ [.renderedDiv]⟩
      else ⟨.ok (), d2, none, ev3⟩

/-- The outcome of calling the exported entry point: either the wasm module
panicked (an `unwrap` on a failed deserialization aborts, no `Result` is
returned), or the pipeline completed with a `Run`. -/
inductive Outcome
  | panicked
  | completed (run : Run)

/-- `pub fn encrypt_canvas(params: &JsValue) -> Result<(), JsValue>`: the
argument is the result of `params.into_serde::<Params>()`, produced by the
serde boundary; `.unwrap()` panics on a decode error, otherwise the pipeline
runs with the source resolver. -/
def encrypt_canvas (decoded : Except String Params) : Outcome :=
  match decoded with
  | .error _ => .panicked
  | .ok p => .completed (runPipeline vipLevelService p)

/-- The baseline viewer constructed by the pipeline right after decryption. -/
def baselineUser (p : Params) : User FreePlan :=
  User.new p.user_token 0 (decrypt_info p.render_info)

/-- The events every request emits before the conditional overlay. -/
def baseEvents : List Event :=
  [.decoded, .decryptPass, .baselineCreated, .renderedCanvas, .renderedImg,
    .resolvedEntitlement]

/-- Body contents after the flattened render of a request for `p`. -/
def bodyAfterCanvas (p : Params) : List Node :=
  [.paragraph captionCanvas,
    .canvas CANVAS_ATTRIBUTES.id CANVAS_ATTRIBUTES.width
      CANVAS_ATTRIBUTES.height (decrypt_info p.render_info)]

/-- Body contents after the derived-image render of a request for `p`. -/
def bodyAfterImg (p : Params) : List Node :=
  bodyAfterCanvas p ++ [.paragraph captionImg,
    .image CANVAS_ATTRIBUTES.width CANVAS_ATTRIBUTES.height
      (decrypt_info p.render_info)]

/-- Body contents after the overlay render of a request for `p`. -/
def bodyAfterDiv (p : Params) : List Node :=
  bodyAfterImg p ++ [.paragraph captionDiv,
    .divWrap CANVAS_ATTRIBUTES.width CANVAS_ATTRIBUTES.height
      (decrypt_info p.render_info)]

/-- Looking up the fixed id right after the flattened render finds the
canvas just created. -/
theorem getCanvasById_afterCanvas (info : List RenderString) :
    Dom.getCanvasById ⟨[.paragraph captionCanvas,
      .canvas CANVAS_ATTRIBUTES.id CANVAS_ATTRIBUTES.width
        CANVAS_ATTRIBUTES.height info]⟩ CANVAS_ATTRIBUTES.id =
      some (.canvas CANVAS_ATTRIBUTES.id CANVAS_ATTRIBUTES.width
        CANVAS_ATTRIBUTES.height info) := by
  rfl

/-- Closed form of one pipeline run: every request renders the canvas and the
image, resolves the entitlement, and renders the overlay exactly when the
resolved tier is positive. -/
theorem runPipeline_eq (resolve : String → Nat) (p : Params) :
    runPipeline resolve p =
      if resolve p.user_token > 0 then
        { result := .ok (), dom := ⟨bodyAfterDiv p⟩,
          vipUser := some (User.fromFree (fetchWith resolve (baselineUser p))),
          events := baseEvents ++ [.renderedDiv] }
      else
        { result := .ok (), dom := ⟨bodyAfterImg p⟩, vipUser := none,
          events := baseEvents } := by
  by_cases h : resolve p.user_token > 0
  · rw [if_pos h]
    simp only [runPipeline, User.render_as_canvas, User.render_as_img,
      User.render_as_div, dom0, fetchWith, User.set_vip_level,
      User.get_vip_level, User.new, baselineUser, baseEvents, bodyAfterCanvas,
      bodyAfterImg, bodyAfterDiv, List.nil_append, List.append_assoc]
    rw [getCanvasById_afterCanvas (decrypt_info p.render_info)]
    simp [h, Node.drawnOf, User.fromFree, User.new, fetchWith,
      User.set_vip_level, bodyAfterCanvas, List.append_assoc]
  · rw [if_neg h]
    simp only [runPipeline, User.render_as_canvas, User.render_as_img,
      dom0, fetchWith, User.set_vip_level, User.get_vip_level, User.new,
      baselineUser, baseEvents, bodyAfterCanvas, bodyAfterImg,
      List.nil_append, List.append_assoc]
    rw [getCanvasById_afterCanvas (decrypt_info p.render_info)]
    simp [h, Node.drawnOf, bodyAfterCanvas, List.append_assoc]

/-- A sample caller token for concrete instantiations. -/
def tok : String := "t1"

/-- A sample request with no fragments. -/
def pEmpty : Params := ⟨[], tok⟩

/-- The VIP user value produced by the pipeline on `pEmpty` with the source
resolver. -/
def vW : User VipPlan := ⟨tok, 3, []⟩

/-- A resolver that denies everyone (tier 0). -/
def resolve0 : String → Nat := fun _ => 0

/-- A sample free user with no fragments. -/
def uFree : User FreePlan := User.new tok 0 []

/-- The bytes of the string `hello`. -/
def sHello : List Byte := [104, 101, 108, 108, 111]

/-- C1: every Elevated-tagged viewer value arising in a run of the pipeline
has `tier > 0`, and it is obtained only by the checked `From` transition
applied to the Baseline viewer after a successful entitlement check — the
pipeline never builds a `User VipPlan` directly from raw input. -/
theorem C1_elevated_invariant (resolve : String → Nat) (p : Params)
    (v : User VipPlan) (h : (runPipeline resolve p).vipUser = some v) :
    v.vip_level > 0 ∧ resolve p.user_token > 0 ∧
      v = User.fromFree (fetchWith resolve (baselineUser p)) := by
  rw [runPipeline_eq] at h
  by_cases hr : resolve p.user_token > 0
  · rw [if_pos hr] at h
    simp only [Option.some.injEq] at h
    subst h
    refine ⟨?_, hr, rfl⟩
    simpa [User.fromFree, User.new, fetchWith, User.set_vip_level,
      baselineUser] using hr
  · rw [if_neg hr] at h
    simp at h

/-- C1 witness: on the empty request with the source resolver the pipeline
produces exactly the checked promotion of the baseline viewer, with tier 3. -/
theorem C1_elevated_invariant_witness :
    (runPipeline vipLevelService pEmpty).vipUser = some vW ∧
      (vW.vip_level > 0 ∧ vipLevelService pEmpty.user_token > 0 ∧
        vW = User.fromFree (fetchWith vipLevelService (baselineUser pEmpty))) :=
  ⟨rfl, C1_elevated_invariant vipLevelService pEmpty vW rfl⟩

/-- C2: on printable-ASCII byte strings, `decrypt` and `encrypt` are mutually
inverse. -/
theorem C2_codec_round_trip (s : List Byte) (h : PrintableAscii s) :
    decrypt (encrypt s) = s ∧ encrypt (decrypt s) = s := by
  have h128 := printable_lt_128 h
  constructor
  · rw [encrypt_eq_decrypt]
    exact decrypt_decrypt_ascii h128
  · rw [encrypt_eq_decrypt]
    exact decrypt_decrypt_ascii h128

/-- C2 witness: round trip on the bytes of `hello`. -/
theorem C2_codec_round_trip_witness :
    PrintableAscii sHello ∧
      (decrypt (encrypt sHello) = sHello ∧ encrypt (decrypt sHello) = sHello) :=
  ⟨by decide, C2_codec_round_trip sHello (by decide)⟩

/-- C3: when the resolver returns tier 0 for the caller token, no upgrade
happens — no VIP user is constructed, the event trace stops at entitlement
resolution, the overlay render does not execute, and both baseline renders
do. -/
theorem C3_tier_zero_gating (resolve : String → Nat) (p : Params)
    (h : resolve p.user_token = 0) :
    (runPipeline resolve p).vipUser = none ∧
      (runPipeline resolve p).events = baseEvents ∧
      Event.renderedDiv ∉ (runPipeline resolve p).events ∧
      Event.renderedCanvas ∈ (runPipeline resolve p).events ∧
      Event.renderedImg ∈ (runPipeline resolve p).events := by
  rw [runPipeline_eq, if_neg (by simp [h])]
  refine ⟨rfl, rfl, ?_, ?_, ?_⟩
  · show Event.renderedDiv ∉ baseEvents
    decide
  · show Event.renderedCanvas ∈ baseEvents
    decide
  · show Event.renderedImg ∈ baseEvents
    decide

/-- C3 witness: the denying resolver on the empty request. -/
theorem C3_tier_zero_gating_witness :
    resolve0 pEmpty.user_token = 0 ∧
      ((runPipeline resolve0 pEmpty).vipUser = none ∧
        (runPipeline resolve0 pEmpty).events = baseEvents ∧
        Event.renderedDiv ∉ (runPipeline resolve0 pEmpty).events ∧
        Event.renderedCanvas ∈ (runPipeline resolve0 pEmpty).events ∧
        Event.renderedImg ∈ (runPipeline resolve0 pEmpty).events) :=
  ⟨rfl, C3_tier_zero_gating resolve0 pEmpty rfl⟩

/-- C4: every request executes decode, decrypt, baseline construction,
flattened render, derived-image render, entitlement resolution, and then the
conditional overlay, in this fixed order; in particular the flattened render
precedes the derived-image render, which precedes resolution. -/
theorem C4_pipeline_order (resolve : String → Nat) (p : Params) :
    (runPipeline resolve p).events =
      [Event.decoded, Event.decryptPass, Event.baselineCreated,
        Event.renderedCanvas, Event.renderedImg, Event.resolvedEntitlement] ++
        (if resolve p.user_token > 0 then [Event.renderedDiv] else []) ∧
      (runPipeline resolve p).events.indexOf Event.renderedCanvas <
        (runPipeline resolve p).events.indexOf Event.renderedImg ∧
      (runPipeline resolve p).events.indexOf Event.renderedImg <
        (runPipeline resolve p).events.indexOf Event.resolvedEntitlement := by
  rw [runPipeline_eq]
  by_cases h : resolve p.user_token > 0
  · rw [if_pos h, if_pos h]
    refine ⟨rfl, ?_, ?_⟩
    · show (baseEvents ++ [Event.renderedDiv]).indexOf Event.renderedCanvas <
        (baseEvents ++ [Event.renderedDiv]).indexOf Event.renderedImg
      decide
    · show (baseEvents ++ [Event.renderedDiv]).indexOf Event.renderedImg <
        (baseEvents ++ [Event.renderedDiv]).indexOf Event.resolvedEntitlement
      decide
  · rw [if_neg h, if_neg h]
    refine ⟨by simp [baseEvents], ?_, ?_⟩
    · show baseEvents.indexOf Event.renderedCanvas <
        baseEvents.indexOf Event.renderedImg
      decide
    · show baseEvents.indexOf Event.renderedImg <
        baseEvents.indexOf Event.resolvedEntitlement
      decide

/-- C5: invoking the derived-image render on a DOM holding no canvas with the
fixed well-known id fails with the missing-surface error and produces no
image artifact. -/
theorem C5_missing_surface (T : Type) (u : User T) (d : Dom)
    (h : d.getCanvasById CANVAS_ATTRIBUTES.id = none) :
    u.render_as_img d = Except.error missingCanvasMsg ∧
      ∀ d' : Dom, u.render_as_img d ≠ Except.ok d' := by
  have hi : u.render_as_img d = Except.error missingCanvasMsg := by
    unfold User.render_as_img
    rw [h]
  exact ⟨hi, fun d' hc => by rw [hi] at hc; exact Except.noConfusion hc⟩

/-- C5 witness: the derived-image render against the empty host page. -/
theorem C5_missing_surface_witness :
    dom0.getCanvasById CANVAS_ATTRIBUTES.id = none ∧
      uFree.render_as_img dom0 = Except.error missingCanvasMsg :=
  ⟨rfl, (C5_missing_surface FreePlan uFree dom0 rfl).1⟩

/-- C6: the promotion from the Baseline tag to the Elevated tag carries over
exactly the caller token, the tier and the fragment sequence. -/
theorem C6_promotion_frame (u : User FreePlan) :
    (User.fromFree u).user_token = u.user_token ∧
      (User.fromFree u).vip_level = u.vip_level ∧
      (User.fromFree u).info = u.info :=
  ⟨rfl, rfl, rfl⟩

/-- C7: the decrypt pass keeps the number and order of fragments, keeps each
fragment's position and font style, and replaces exactly the cipher field by
its decryption. -/
theorem C7_decrypt_pass_frame (l : List RenderString) (i : Nat) :
    (decrypt_info l).length = l.length ∧
      (decrypt_info l)[i]?.map RenderString.position =
        l[i]?.map RenderString.position ∧
      (decrypt_info l)[i]?.map RenderString.font_style =
        l[i]?.map RenderString.font_style ∧
      (decrypt_info l)[i]?.map RenderString.cipher =
        l[i]?.map (fun it => decrypt it.cipher) := by
  unfold decrypt_info
  refine ⟨List.length_map _ _, ?_, ?_, ?_⟩ <;>
    cases hl : l[i]? <;> simp [List.getElem?_map, hl]

/-- C8 counterexample: contrary to the claim, there is no printable-ASCII
string on which double decryption fails to be the identity — XOR with the
key keeps printable ASCII inside the ASCII range, where the lossy UTF-8
re-decoding is the identity. -/
theorem C8_no_printable_double_decrypt_failure :
    ¬ ∃ s : List Byte, PrintableAscii s ∧ decrypt (decrypt s) ≠ s := by
  rintro ⟨s, hp, hne⟩
  exact hne (decrypt_decrypt_ascii (printable_lt_128 hp))

/-- C8 amended: on printable-ASCII strings the codec IS self-inverse under
double application — decrypting an already-decrypted printable-ASCII batch a
second time is a no-op. -/
theorem C8_amended_double_decrypt (s : List Byte) (h : PrintableAscii s) :
    decrypt (decrypt s) = s :=
  decrypt_decrypt_ascii (printable_lt_128 h)

/-- C8 witness: double decryption of the bytes of `hello`. -/
theorem C8_amended_double_decrypt_witness :
    PrintableAscii sHello ∧ decrypt (decrypt sHello) = sHello :=
  ⟨by decide, C8_amended_double_decrypt sHello (by decide)⟩

/-- C9: the source entitlement resolution sets the tier to the constant 3
for every token, so with the source resolver every request constructs the
VIP viewer and executes the overlay render. -/
theorem C9_resolver_always_elevates :
    (∀ token : String, vipLevelService token = 3) ∧
      (∀ (T : Type) (u : User T), (User.fetch_vip_level u).vip_level = 3) ∧
      (∀ p : Params, (runPipeline vipLevelService p).vipUser.isSome = true ∧
        Event.renderedDiv ∈ (runPipeline vipLevelService p).events) := by
  refine ⟨fun _ => rfl, fun T u => rfl, fun p => ?_⟩
  rw [runPipeline_eq, if_pos (by simp [vipLevelService])]
  refine ⟨rfl, ?_⟩
  show Event.renderedDiv ∈ baseEvents ++ [Event.renderedDiv]
  decide

/-- C10: on a payload that fails to deserialize into `Params`, the entry
point panics (the `unwrap` aborts) and never returns, neither `Ok` nor
`Err`. -/
theorem C10_malformed_payload_panics (e : String) :
    encrypt_canvas (Except.error e) = Outcome.panicked ∧
      ∀ r : Run, encrypt_canvas (Except.error e) ≠ Outcome.completed r :=
  ⟨rfl, fun _ hc => Outcome.noConfusion hc⟩

end WasmEncryptCanvas
